import Mathlib

/-!
Verification of the two scripts of this repository against their
natural-language specification.

Part 1 embeds src/ner/data/preprocess.py: a line-by-line preprocessor for
NER training data. The external subword tokenizer (transformers
AutoTokenizer) is modelled as a parameter tok : String → List String;
the script only ever uses len(tokenizer.tokenize(token)).

Part 2 embeds the repository-owned control flow of src/squad/run_squad.py:
the branch structure of train/evaluate/load_and_cache_examples/main, with
the external library calls (model, optimizer, decoders) as opaque
parameters and the filesystem as an explicit state of boolean predicates.
-/

namespace NerPreprocess

/-- Python str.rstrip(): drop trailing whitespace characters. -/
def rstrip (s : String) : String :=
  String.mk (List.reverse (List.dropWhile Char.isWhitespace (List.reverse s.toList)))

/-- Helper for Python str.split() with no separator: split on runs of
characters satisfying p, dropping empty pieces. acc holds the current
field, reversed. -/
def splitDropEmpty (p : Char → Bool) : List Char → List Char → List String
  | [], acc => if acc.isEmpty then [] else [String.mk acc.reverse]
  | c :: cs, acc =>
    if p c then
      if acc.isEmpty then splitDropEmpty p cs []
      else String.mk acc.reverse :: splitDropEmpty p cs []
    else
      splitDropEmpty p cs (c :: acc)

/-- Python line.split(): whitespace-separated fields of a line. -/
def fields (s : String) : List String :=
  splitDropEmpty Char.isWhitespace s.toList []

/-- token = line[0] after split (first whitespace-separated field). -/
def lineToken (line : String) : String := (fields line).headD ("")

/-- label = line[-1] after split (last whitespace-separated field). -/
def lineLabel (line : String) : String := (fields line).getLastD ("")

/-- current_subwords_len = len(tokenizer.tokenize(token)) in the script. -/
def current_subwords_len (tok : String → List String) (line : String) : Nat :=
  (tok (lineToken line)).length

/-- One iteration of the line loop of the script (preprocess.py lines 14-39).
Input: the running subword_len_counter and the raw line; output: the new
counter and the lines printed for this input line. -/
def processLine (tok : String → List String) (maxLen : Int) (counter : Nat)
    (rawLine : String) : Nat × List String :=
  let line := rstrip rawLine
  if line = "" then
    (0, [""])
  else
    let token := lineToken line
    let label := lineLabel line
    let cur := current_subwords_len tok line
    if cur = 0 then
      (counter, [])
    else if ((counter + cur : Nat) : Int) > maxLen then
      (0, ["", token ++ " " ++ label])
    else
      (counter + cur, [token ++ " " ++ label])

/-- The whole line loop: threads the counter through the lines and
concatenates the printed output in order. Returns (final counter, output
lines). -/
def process (tok : String → List String) (maxLen : Int) :
    Nat → List String → Nat × List String
  | c, [] => (c, [])
  | c, l :: ls =>
    let r := processLine tok maxLen c l
    let rest := process tok maxLen r.1 ls
    (rest.1, r.2 ++ rest.2)

/-- One step of the loop viewed as a left-fold step on the accumulator
(counter, output so far). -/
def processStep (tok : String → List String) (maxLen : Int)
    (acc : Nat × List String) (l : String) : Nat × List String :=
  let r := processLine tok maxLen acc.1 l
  (r.1, acc.2 ++ r.2)

/-- The loop instrumented with the list of lines it visits, in visit
order. -/
def processVisit (tok : String → List String) (maxLen : Int) :
    Nat → List String → (Nat × List String) × List String
  | c, [] => ((c, []), [])
  | c, l :: ls =>
    let r := processLine tok maxLen c l
    let rest := processVisit tok maxLen r.1 ls
    ((rest.1.1, r.2 ++ rest.1.2), l :: rest.2)

example : fields ("a  b\tc") = ["a", "b", "c"] := by decide

example : rstrip ("ab  ") = "ab" := by decide

example :
    process (fun _ => ["x"]) 2 0 ["a B-LOC", "b O", "c O", "", "d O"]
      = (1, ["a B-LOC", "b O", "", "c O", "", "d O"]) := by decide

theorem foldl_process (tok : String → List String) (maxLen : Int)
    (ls : List String) :
    ∀ (c : Nat) (out : List String),
      List.foldl (processStep tok maxLen) (c, out) ls
        = ((process tok maxLen c ls).1, out ++ (process tok maxLen c ls).2) := by
  induction ls with
  | nil => intro c out; simp [process]
  | cons l ls ih =>
    intro c out
    simp only [List.foldl, process, processStep]
    rw [ih]
    simp

/-- C1: the preprocessor is a single left-to-right pass, a left fold whose
only threaded state is the integer subword length counter: the output of
the whole run equals List.foldl of a step function that consumes one line
and reads nothing but that line and the current counter. -/
theorem c1_single_pass_left_fold (tok : String → List String) (maxLen : Int)
    (c : Nat) (ls : List String) :
    process tok maxLen c ls = List.foldl (processStep tok maxLen) (c, []) ls := by
  rw [foldl_process]
  simp

/-- C2 counterexample: the claim says the token and label of every
non-blank line are printed, but a line whose token the tokenizer maps to zero
subwords (the control-character filter at preprocess.py lines 26-29) is
dropped: with a tokenizer returning no subwords, the non-blank line
"badtok O" produces no output at all. -/
theorem c2_counterexample :
    rstrip ("badtok O") ≠ "" ∧
      ("badtok" ++ " " ++ "O") ∉ (process (fun _ => ([] : List String)) 128 0 ["badtok O"]).2 := by
  constructor
  · decide
  · decide

/-- C2 amended: for every non-blank input line whose token tokenizes to at
least one subword, the printed output of the line ends with its first
whitespace-separated field followed by its last one (lines whose token
tokenizes to zero subwords are dropped; input order of the per-line
outputs is what the concatenation in c1_single_pass_left_fold states). -/
theorem c2_token_label_output (tok : String → List String) (maxLen : Int)
    (c : Nat) (l : String)
    (hne : rstrip l ≠ "")
    (htk : current_subwords_len tok (rstrip l) ≠ 0) :
    (processLine tok maxLen c l).2.getLast?
      = some (lineToken (rstrip l) ++ " " ++ lineLabel (rstrip l)) := by
  unfold processLine
  simp only [hne, htk, if_false, ite_false]
  split <;> simp

theorem c2_token_label_output_witness :
    (processLine (fun _ => ["x"]) 128 0 ("badtok O")).2.getLast?
      = some (lineToken (rstrip ("badtok O")) ++ " " ++ lineLabel (rstrip ("badtok O"))) :=
  c2_token_label_output (fun _ => ["x"]) 128 0 ("badtok O") (by decide) (by decide)

theorem processLine_counter_le (tok : String → List String) (maxLen : Int)
    (c : Nat) (l : String) (h : (c : Int) ≤ maxLen) :
    ((processLine tok maxLen c l).1 : Int) ≤ maxLen := by
  have h0 : (0 : Int) ≤ maxLen := le_trans (Int.ofNat_nonneg c) h
  unfold processLine
  simp only
  split
  · simpa using h0
  · split
    · simpa using h
    · split
      · simpa using h0
      · rename_i hgt
        push_neg at hgt
        simpa using hgt

/-- C3: when max_len is non-negative, after any prefix of the input the
subword length counter lies between 0 and max_len: it is only incremented
when the new total stays within max_len, and it is reset to 0 on blank
lines and on split lines. -/
theorem c3_counter_invariant (tok : String → List String) (maxLen : Int)
    (hml : 0 ≤ maxLen) (ls : List String) :
    0 ≤ ((process tok maxLen 0 ls).1 : Int) ∧
      ((process tok maxLen 0 ls).1 : Int) ≤ maxLen := by
  refine ⟨Int.ofNat_nonneg _, ?_⟩
  have key : ∀ (ls : List String) (c : Nat), (c : Int) ≤ maxLen →
      ((process tok maxLen c ls).1 : Int) ≤ maxLen := by
    intro ls
    induction ls with
    | nil => intro c hc; simpa [process] using hc
    | cons l ls ih =>
      intro c hc
      simp only [process]
      exact ih _ (processLine_counter_le tok maxLen c l hc)
  exact key ls 0 (by simpa using hml)

theorem c3_counter_invariant_witness :
    0 ≤ ((process (fun _ => ["x"]) 5 0 ["a O", "b O"]).1 : Int) ∧
      ((process (fun _ => ["x"]) 5 0 ["a O", "b O"]).1 : Int) ≤ 5 :=
  c3_counter_invariant (fun _ => ["x"]) 5 (by decide) ["a O", "b O"]

/-- C4: a line that triggers a split (counter plus the subword
count exceeds max_len, with a non-zero subword count) prints a blank line
followed by the token and label, and resets the counter to 0 without
charging the subwords of that token to the new example. -/
theorem c4_split_branch (tok : String → List String) (maxLen : Int)
    (c : Nat) (l : String)
    (hne : rstrip l ≠ "")
    (htk : current_subwords_len tok (rstrip l) ≠ 0)
    (hsplit : ((c + current_subwords_len tok (rstrip l) : Nat) : Int) > maxLen) :
    processLine tok maxLen c l
      = (0, ["", lineToken (rstrip l) ++ " " ++ lineLabel (rstrip l)]) := by
  unfold processLine
  simp only [hne, htk, if_false, ite_false]
  rw [if_pos hsplit]

theorem c4_split_branch_witness :
    processLine (fun _ => ["x", "y"]) 1 0 ("tok B-LOC")
      = (0, ["", lineToken (rstrip ("tok B-LOC")) ++ " " ++ lineLabel (rstrip ("tok B-LOC"))]) :=
  c4_split_branch (fun _ => ["x", "y"]) 1 0 ("tok B-LOC") (by decide) (by decide) (by decide)

/-- C5: on a non-blank, non-dropped, non-splitting line the counter grows
by exactly the length of the tokenize output of the external tokenizer on
the token of the line; the script never computes a subword count any other way. -/
theorem c5_subword_count_from_tokenizer (tok : String → List String)
    (maxLen : Int) (c : Nat) (l : String)
    (hne : rstrip l ≠ "")
    (htk : (tok (lineToken (rstrip l))).length ≠ 0)
    (hfit : ¬ ((c + (tok (lineToken (rstrip l))).length : Nat) : Int) > maxLen) :
    (processLine tok maxLen c l).1 = c + (tok (lineToken (rstrip l))).length := by
  unfold processLine current_subwords_len
  simp only [hne, htk, if_false, ite_false]
  rw [if_neg hfit]

theorem c5_subword_count_from_tokenizer_witness :
    (processLine (fun _ => ["x", "y"]) 9 3 ("tok B-LOC")).1
      = 3 + ((fun _ => ["x", "y"]) (lineToken (rstrip ("tok B-LOC"))) : List String).length :=
  c5_subword_count_from_tokenizer (fun _ => ["x", "y"]) 9 3 ("tok B-LOC")
    (by decide) (by decide) (by decide)

/-- C10: on any finite list of input lines the preprocessor terminates
(process and processVisit are total structurally recursive functions) and
visits exactly the input lines, once each, in input order, computing the
same result as process. -/
theorem c10_terminates_visits_in_order (tok : String → List String)
    (maxLen : Int) (c : Nat) (ls : List String) :
    (processVisit tok maxLen c ls).2 = ls ∧
      (processVisit tok maxLen c ls).1 = process tok maxLen c ls := by
  induction ls generalizing c with
  | nil => simp [processVisit, process]
  | cons l ls ih =>
    simp only [processVisit, process]
    refine ⟨?_, ?_⟩
    · simp [(ih _).1]
    · simp [(ih _).2]

end NerPreprocess

namespace RunSquad

/-- The parsed command-line arguments of run_squad.py that its own control
flow reads (numeric and string flags; ints that the script only compares
for sign or equality are kept at their source types). -/
structure SquadArgs where
  model_type : String
  fp16 : Bool
  local_rank : Int
  do_train : Bool
  do_eval : Bool
  overwrite_cache : Bool
  overwrite_output_dir : Bool
  save_steps : Nat
  model_name_or_path : String
  data_dir : String
  output_dir : String
  max_seq_length : Nat
  version_2_with_negative : Bool
deriving DecidableEq

/-- Pre-existing filesystem state, as the two predicates the script
queries: os.path.exists/os.path.isfile on a path, and truthiness of
os.listdir on a directory. -/
structure FsState where
  pathExists : String → Bool
  dirNonempty : String → Bool

/-- os.path.join for the relative names the script joins. -/
def joinPath (a b : String) : String := a ++ "/" ++ b

/-- input_dir = args.data_dir if args.data_dir else "." (line 446). -/
def inputDir (a : SquadArgs) : String :=
  if a.data_dir = "" then "." else a.data_dir

/-- list(filter(None, s.split("/"))).pop() (line 451): the last non-empty
slash-separated component. -/
def lastPathComponent (s : String) : String :=
  (NerPreprocess.splitDropEmpty (fun c => c = '/') s.toList []).getLastD ("")

/-- The cache file name of load_and_cache_examples (lines 447-454). -/
def cachedFeaturesFile (a : SquadArgs) (evalMode : Bool) : String :=
  joinPath (inputDir a)
    ("cached_" ++ (if evalMode then "dev" else "train") ++ "_"
      ++ lastPathComponent a.model_name_or_path ++ "_" ++ toString a.max_seq_length)

/-- The branch of load_and_cache_examples line 457: load features from the
cache exactly when the cache file exists and overwrite_cache is unset. -/
def usesCachedFeatures (a : SquadArgs) (fs : FsState) (evalMode : Bool) : Bool :=
  fs.pathExists (cachedFeaturesFile a evalMode) && !a.overwrite_cache

/-- The branch of train lines 110-112: resume optimizer and scheduler
state exactly when both saved state files exist next to the model path. -/
def resumesOptimizerState (a : SquadArgs) (fs : FsState) : Bool :=
  fs.pathExists (joinPath a.model_name_or_path ("optimizer.pt"))
    && fs.pathExists (joinPath a.model_name_or_path ("scheduler.pt"))

/-- The guard of main lines 521-526: output_dir exists, is non-empty,
do_train is set and overwrite_output_dir is not. -/
def outputDirConflict (a : SquadArgs) (fs : FsState) : Bool :=
  fs.pathExists a.output_dir && fs.dirNonempty a.output_dir
    && a.do_train && !a.overwrite_output_dir

/-- args.model_type in ["xlnet", "xlm"] (lines 205, 345, 399). -/
def isXlnetXlm (a : SquadArgs) : Bool :=
  a.model_type == "xlnet" || a.model_type == "xlm"

/-- The branch decisions of run_squad.py at the lines the claim cites,
plus the flag-only dispatches, in program order: the output-dir guard
(lines 521-526), fp16 (120, 245, 616), the model-type dispatch (202, 205,
339, 345, 399), the rank test (79, 264, 275, 298, 656), the
optimizer/scheduler resume probe (110-112), the resume-from-path probe
(159) and the two cache probes of load_and_cache_examples (457, train and
eval). This is a strict subset of the branches of the driver: it omits
the uncertainty-optimizer probe (117), the checkpoint-dir probe inside
the save block (277), the checkpoint search under output_dir (663), the
CUDA probes (543-545, 66, 131), the hasattr probes on the model object
(209, 348, 400) and the output-arity test (364), whose outcomes depend on
state beyond these flags and probes. -/
def citedBranchDecisions (a : SquadArgs) (fs : FsState) : List Bool :=
  [outputDirConflict a fs,
   a.fp16,
   isXlnetXlm a,
   a.local_rank == -1 || a.local_rank == 0,
   resumesOptimizerState a fs,
   fs.pathExists a.model_name_or_path,
   usesCachedFeatures a fs false,
   usesCachedFeatures a fs true]

/-- A concrete parsed configuration for the counterexamples. -/
def argsBert : SquadArgs where
  model_type := "bert"
  fp16 := false
  local_rank := -1
  do_train := true
  do_eval := false
  overwrite_cache := false
  overwrite_output_dir := false
  save_steps := 50
  model_name_or_path := "bert-base-uncased"
  data_dir := ""
  output_dir := "out"
  max_seq_length := 384
  version_2_with_negative := false

/-- A filesystem in which every probe fails. -/
def fsEmpty : FsState := ⟨fun _ => false, fun _ => false⟩

/-- A filesystem in which every probe succeeds. -/
def fsFull : FsState := ⟨fun _ => true, fun _ => true⟩

/-- C6 counterexample: the branches of the driver are not decided solely
by the parsed arguments: with the same parsed arguments, an empty
filesystem and a saturated one already flip the branch decisions at the
very lines the claim cites (the cache probe of line 457, the
optimizer/scheduler resume probe of lines 110-112, the output-dir guard
of lines 521-526). -/
theorem c6_counterexample :
    citedBranchDecisions argsBert fsEmpty ≠ citedBranchDecisions argsBert fsFull := by
  decide

/-- C6 amended, scoped to the branches the claim cites: those branch
decisions — the optimizer/scheduler resume probe (110-112), the
resume-from-path probe (159), the cached-features probes (457) and the
output-dir guard (521-526), together with the flag dispatches on model
type, fp16 and rank — are each decided by the parsed configuration flags
together with the filesystem probe results at the paths named in that
branch, so two runs agreeing on the parsed arguments and on those probes
take the same decisions on this subset. This does not extend to every
branch of the driver: others probe further filesystem paths (117, 277,
663) or depend on hardware and model state (543-545, 209, 348, 400,
364), so for fixed parsed arguments the full branch sequence still
varies with filesystem and hardware state. -/
theorem c6_cited_branches_determined (a : SquadArgs) (fs1 fs2 : FsState)
    (h1 : fs1.pathExists a.output_dir = fs2.pathExists a.output_dir)
    (h2 : fs1.dirNonempty a.output_dir = fs2.dirNonempty a.output_dir)
    (h3 : fs1.pathExists (joinPath a.model_name_or_path ("optimizer.pt"))
      = fs2.pathExists (joinPath a.model_name_or_path ("optimizer.pt")))
    (h4 : fs1.pathExists (joinPath a.model_name_or_path ("scheduler.pt"))
      = fs2.pathExists (joinPath a.model_name_or_path ("scheduler.pt")))
    (h5 : fs1.pathExists a.model_name_or_path = fs2.pathExists a.model_name_or_path)
    (h6 : fs1.pathExists (cachedFeaturesFile a false)
      = fs2.pathExists (cachedFeaturesFile a false))
    (h7 : fs1.pathExists (cachedFeaturesFile a true)
      = fs2.pathExists (cachedFeaturesFile a true)) :
    citedBranchDecisions a fs1 = citedBranchDecisions a fs2 := by
  simp only [citedBranchDecisions, outputDirConflict, resumesOptimizerState,
    usesCachedFeatures, h1, h2, h3, h4, h5, h6, h7]

theorem c6_cited_branches_determined_witness :
    citedBranchDecisions argsBert fsEmpty = citedBranchDecisions argsBert fsEmpty :=
  c6_cited_branches_determined argsBert fsEmpty fsEmpty
    rfl rfl rfl rfl rfl rfl rfl

/-- output_prediction_file (line 390). -/
def predictionsFile (a : SquadArgs) (pfx : String) : String :=
  joinPath a.output_dir ("predictions_" ++ pfx ++ ".json")

/-- output_nbest_file (line 391). -/
def nbestFile (a : SquadArgs) (pfx : String) : String :=
  joinPath a.output_dir ("nbest_predictions_" ++ pfx ++ ".json")

/-- output_null_log_odds_file (lines 393-396): set only under
version_2_with_negative. -/
def nullLogOddsFile (a : SquadArgs) (pfx : String) : Option String :=
  if a.version_2_with_negative then
    some (joinPath a.output_dir ("null_odds_" ++ pfx ++ ".json"))
  else
    none

/-- Lines 398-433 of evaluate: dispatch to the external decoder chosen by
the model type; the decoders themselves are opaque parameters of type
(prediction file, nbest file, null-odds file) → predictions. -/
def computeEvalPredictions {Pred : Type} (a : SquadArgs)
    (logProbsFn logitsFn : String → String → Option String → Pred)
    (pfx : String) : Pred :=
  if isXlnetXlm a then
    logProbsFn (predictionsFile a pfx) (nbestFile a pfx) (nullLogOddsFile a pfx)
  else
    logitsFn (predictionsFile a pfx) (nbestFile a pfx) (nullLogOddsFile a pfx)

/-- Lines 436-437 of evaluate: the returned results are squad_evaluate of
the examples and the decoded predictions. -/
def evaluateDriver {Ex Pred Res : Type} (a : SquadArgs) (examples : Ex)
    (logProbsFn logitsFn : String → String → Option String → Pred)
    (squadEvaluateFn : Ex → Pred → Res) (pfx : String) : Res :=
  squadEvaluateFn examples (computeEvalPredictions a logProbsFn logitsFn pfx)

/-- C7: during evaluation the final predictions are exactly what the
external decoder returns — compute_predictions_log_probs when the model
type is xlnet or xlm, compute_predictions_logits otherwise — and evaluate
returns exactly squad_evaluate applied to the examples and those
predictions; no span decoding happens in repository code. -/
theorem c7_eval_delegates_decoding {Ex Pred Res : Type} (a : SquadArgs)
    (examples : Ex) (logProbsFn logitsFn : String → String → Option String → Pred)
    (squadEvaluateFn : Ex → Pred → Res) (pfx : String) :
    evaluateDriver a examples logProbsFn logitsFn squadEvaluateFn pfx
      = squadEvaluateFn examples
          (if a.model_type = "xlnet" ∨ a.model_type = "xlm" then
            logProbsFn (predictionsFile a pfx) (nbestFile a pfx) (nullLogOddsFile a pfx)
          else
            logitsFn (predictionsFile a pfx) (nbestFile a pfx) (nullLogOddsFile a pfx)) := by
  unfold evaluateDriver computeEvalPredictions isXlnetXlm
  by_cases h : a.model_type = "xlnet" ∨ a.model_type = "xlm"
  · rw [if_pos h]
    rcases h with h | h <;> simp [h]
  · rw [if_neg h]
    push_neg at h
    simp [h.1, h.2]

/-- The externally visible phases of main after argument parsing, in
program order. -/
inductive MainEvent where
  | loadConfig
  | loadTokenizer
  | loadModel
  | loadDataset
  | runTraining
  | runEval
deriving DecidableEq

/-- The phase sequence of main (lines 510-686): the output-dir guard runs
first and raises ValueError before anything is loaded; otherwise config,
tokenizer and model are loaded, then the dataset is loaded and training
runs when do_train, then evaluation runs when do_eval and the rank is in
[-1, 0]. Result: (events that happened, raised error if any). -/
def mainSteps (a : SquadArgs) (fs : FsState) : List MainEvent × Option String :=
  if outputDirConflict a fs then
    ([], some ("ValueError"))
  else
    (([MainEvent.loadConfig, MainEvent.loadTokenizer, MainEvent.loadModel]
        ++ (if a.do_train then [MainEvent.loadDataset, MainEvent.runTraining] else [])
        ++ (if a.do_eval && (a.local_rank == -1 || a.local_rank == 0) then
              [MainEvent.runEval]
            else [])),
      none)

/-- C8: main raises ValueError exactly when output_dir exists, is
non-empty, do_train is set and overwrite_output_dir is not; and the guard
fires before anything is loaded, so either no error is raised or the list
of completed phases is empty. -/
theorem c8_output_dir_guard (a : SquadArgs) (fs : FsState) :
    ((mainSteps a fs).2 = some ("ValueError")
      ↔ fs.pathExists a.output_dir = true ∧ fs.dirNonempty a.output_dir = true
          ∧ a.do_train = true ∧ a.overwrite_output_dir = false)
    ∧ ((mainSteps a fs).2 = none ∨ (mainSteps a fs).1 = []) := by
  unfold mainSteps outputDirConflict
  by_cases h : (fs.pathExists a.output_dir && fs.dirNonempty a.output_dir
      && a.do_train && !a.overwrite_output_dir) = true
  · rw [if_pos h]
    simp only [Bool.and_eq_true, Bool.not_eq_true'] at h
    simp only [or_true, and_true]
    constructor
    · intro _
      exact ⟨h.1.1.1, h.1.1.2, h.1.2, h.2⟩
    · intro _
      trivial
  · rw [if_neg h]
    simp only [Bool.and_eq_true, Bool.not_eq_true'] at h
    constructor
    · constructor
      · intro hx
        exact Option.noConfusion hx
      · intro hx
        exact absurd ⟨⟨⟨hx.1, hx.2.1⟩, hx.2.2.1⟩, hx.2.2.2⟩ h
    · exact Or.inl rfl

/-- checkpoint output directory output_dir/checkpoint-<global_step>
(line 276). -/
def checkpointDir (a : SquadArgs) (gs : Nat) : String :=
  joinPath a.output_dir ("checkpoint-" ++ toString gs)

/-- The disk writes of the checkpoint block. -/
inductive SaveEvent where
  | saveModel (dir : String)
  | saveTokenizer (dir : String)
  | saveTrainingArgs (path : String)
  | saveOptimizerState (path : String)
  | saveSchedulerState (path : String)
deriving DecidableEq

/-- Lines 280-288: the five writes of one checkpoint, in program order. -/
def checkpointWrites (a : SquadArgs) (gs : Nat) : List SaveEvent :=
  [SaveEvent.saveModel (checkpointDir a gs),
   SaveEvent.saveTokenizer (checkpointDir a gs),
   SaveEvent.saveTrainingArgs (joinPath (checkpointDir a gs) ("training_args.bin")),
   SaveEvent.saveOptimizerState (joinPath (checkpointDir a gs) ("optimizer.pt")),
   SaveEvent.saveSchedulerState (joinPath (checkpointDir a gs) ("scheduler.pt"))]

/-- One optimizer update (lines 258-289): global_step is incremented, then
the checkpoint block runs when local_rank is in [-1, 0], save_steps > 0
and the new global_step is divisible by save_steps. Returns the new
global_step and the writes performed after this update. -/
def afterOptimizerUpdate (a : SquadArgs) (gs : Nat) : Nat × List SaveEvent :=
  if (a.local_rank = -1 ∨ a.local_rank = 0) ∧ 0 < a.save_steps
      ∧ (gs + 1) % a.save_steps = 0 then
    (gs + 1, checkpointWrites a (gs + 1))
  else
    (gs + 1, [])

/-- A run of n optimizer updates starting from a given global_step: the
list whose k-th entry is the writes performed right after the (k+1)-th
update. -/
def runOptimizerUpdates (a : SquadArgs) : Nat → Nat → List (List SaveEvent)
  | _, 0 => []
  | gs, n + 1 =>
    (afterOptimizerUpdate a gs).2 :: runOptimizerUpdates a (afterOptimizerUpdate a gs).1 n

/-- A fresh training run: global_step is initialized to 1 (line 155)
before the first optimizer update. -/
def trainingSaves (a : SquadArgs) (numUpdates : Nat) : List (List SaveEvent) :=
  runOptimizerUpdates a 1 numUpdates

/-- A concrete configuration saving every 2 steps on the main process. -/
def argsSave2 : SquadArgs where
  model_type := "bert"
  fp16 := false
  local_rank := -1
  do_train := true
  do_eval := false
  overwrite_cache := false
  overwrite_output_dir := false
  save_steps := 2
  model_name_or_path := "bert-base-uncased"
  data_dir := ""
  output_dir := "out"
  max_seq_length := 384
  version_2_with_negative := false

/-- C9 counterexample: with local_rank = -1 and save_steps = 2, a fresh
run of two optimizer updates checkpoints after the FIRST update (which
brings global_step, initialized to 1, to 2) and writes nothing after the
second — the save_steps-th — update, because the checkpoint condition is
global_step % save_steps == 0 and global_step starts at 1, not 0. -/
theorem c9_counterexample :
    trainingSaves argsSave2 2 = [checkpointWrites argsSave2 2, []] := by
  decide

theorem runOptimizerUpdates_getD (a : SquadArgs) :
    ∀ (n gs k : Nat), k < n →
      (runOptimizerUpdates a gs n).getD k [] = (afterOptimizerUpdate a (gs + k)).2 := by
  intro n
  induction n with
  | zero => intro gs k hk; omega
  | succ n ih =>
    intro gs k hk
    cases k with
    | zero => simp [runOptimizerUpdates]
    | succ k =>
      have h1 : (afterOptimizerUpdate a gs).1 = gs + 1 := by
        unfold afterOptimizerUpdate
        split <;> rfl
      simp only [runOptimizerUpdates, List.getD_cons_succ, h1]
      have hx : gs + 1 + k = gs + (k + 1) := by omega
      rw [ih (gs + 1) k (by omega), hx]

/-- C9 amended: whenever training runs with local_rank in [-1, 0] and
save_steps > 0, then after every optimizer update that brings global_step
— initialized to 1 on a fresh run and incremented once per update — to a
multiple of save_steps (the (k+1)-th update, where 1 + (k+1) is divisible
by save_steps), the driver writes the model, tokenizer, training
arguments, optimizer state and scheduler state to
output_dir/checkpoint-<global_step>. -/
theorem c9_checkpoint_schedule (a : SquadArgs) (n k : Nat)
    (hrank : a.local_rank = -1 ∨ a.local_rank = 0)
    (hsave : 0 < a.save_steps)
    (hk : k < n)
    (hstep : (1 + k + 1) % a.save_steps = 0) :
    (trainingSaves a n).getD k [] = checkpointWrites a (1 + k + 1) := by
  unfold trainingSaves
  rw [runOptimizerUpdates_getD a n 1 k hk]
  unfold afterOptimizerUpdate
  rw [if_pos ⟨hrank, hsave, hstep⟩]

theorem c9_checkpoint_schedule_witness :
    (trainingSaves argsSave2 1).getD 0 [] = checkpointWrites argsSave2 2 :=
  c9_checkpoint_schedule argsSave2 1 0 (Or.inl rfl) (by decide) (by decide) (by decide)

end RunSquad
